import Mathlib

/-!
Shallow embedding of the coordinate-calibration and inverse-kinematics core
of the repository (file kinematics.py), together with proofs of the spec
claims about it.

Conventions of the embedding:
* Python floats are modelled as exact numbers: rationals for the purely
  affine pixel/table transform and the pulse-width arithmetic, reals for the
  trigonometric solver.
* A Python float division whose denominator is zero raises ZeroDivisionError;
  a function that can raise is modelled as returning an Option, with none
  standing for the raised exception.
* Python int() applied to a float truncates toward zero; it is modelled by
  trunc below.
* The module-level calibration cache (_calibration) and the calibration file
  are modelled as an explicit StoreState record threaded through
  load_calibration / save_calibration.
-/

/-- The calibration dictionary of kinematics.py, as a record. The numeric
field type is a parameter so that the affine transform can be studied over ℚ
(computable) and the trigonometric solver over ℝ. -/
structure CalibrationProfile (α : Type) where
  origin_px : α × α
  scale_x : α
  scale_y : α
  flip_x : Bool
  flip_y : Bool
  table_width_m : α
  table_height_m : α
  arm_base_x : α
  arm_base_y : α
  base_height_m : α
  shoulder_height_m : α
  upper_arm_length_m : α
  lower_arm_length_m : α
  hand_length_m : α
deriving Repr, DecidableEq

/-- DEFAULT_CALIBRATION of kinematics.py. -/
def DEFAULT_CALIBRATION (α : Type) [DivisionRing α] : CalibrationProfile α where
  origin_px := (320, 240)
  scale_x := 0.0015
  scale_y := 0.0015
  flip_x := false
  flip_y := true
  table_width_m := 0.60
  table_height_m := 0.40
  arm_base_x := 0.0
  arm_base_y := 0.0
  base_height_m := 0.0612
  shoulder_height_m := 0.095
  upper_arm_length_m := 0.12
  lower_arm_length_m := 0.09
  hand_length_m := 0.06

/-- Python int() on a float: truncation toward zero. -/
def trunc (q : ℚ) : ℤ := if 0 ≤ q then ⌊q⌋ else ⌈q⌉

/-- px_to_table of kinematics.py: pixel coordinates to table metres.
Pure arithmetic, no division, total. -/
def px_to_table {α : Type} [Field α] (cx cy : α)
    (c : CalibrationProfile α) : α × α :=
  let dx := (cx - c.origin_px.1) * c.scale_x
  let dy := (cy - c.origin_px.2) * c.scale_y
  let dx := if c.flip_x then -dx else dx
  let dy := if c.flip_y then -dy else dy
  (dx, dy)

/-- table_to_px of kinematics.py: table metres back to (truncated) pixel
coordinates. The two divisions by scale_x / scale_y raise ZeroDivisionError
when a scale is zero, hence the Option. -/
def table_to_px (x y : ℚ) (c : CalibrationProfile ℚ) : Option (ℤ × ℤ) :=
  if c.scale_x = 0 ∨ c.scale_y = 0 then none
  else
    let x := if c.flip_x then -x else x
    let y := if c.flip_y then -y else y
    some (trunc (c.origin_px.1 + x / c.scale_x),
          trunc (c.origin_px.2 + y / c.scale_y))

/-- The calibration state of the process: the module-level cache
`_calibration` and the contents of calibration.json. `file = none` models a
missing file or one json.load rejects; `file = some p` a file that parses to
profile p. -/
structure StoreState (α : Type) where
  cache : Option (CalibrationProfile α)
  file : Option (CalibrationProfile α)
deriving Repr, DecidableEq

/-- load_calibration of kinematics.py. Returns the cached profile when one
exists; otherwise reads the file (falling back to the default on a missing or
unparsable file) and caches the result. -/
def load_calibration {α : Type} (s : StoreState α)
    (default : CalibrationProfile α) : StoreState α × CalibrationProfile α :=
  match s.cache with
  | some c => (s, c)
  | none =>
    match s.file with
    | some f => ({ s with cache := some f }, f)
    | none => ({ s with cache := some default }, default)

/-- save_calibration of kinematics.py. When called with an explicit profile
it writes that profile to the file; when called with none it writes the
cached profile, lazily loading it first when the cache is empty. `writeOk`
models whether the file write succeeds; the function returns success. The
cache is NOT updated with the saved profile. -/
def save_calibration {α : Type} (s : StoreState α)
    (default : CalibrationProfile α) (arg : Option (CalibrationProfile α))
    (writeOk : Bool) : StoreState α × Bool :=
  let sc : StoreState α × CalibrationProfile α :=
    match arg with
    | some cal => (s, cal)
    | none =>
      match s.cache with
      | some c => (s, c)
      | none => load_calibration s default
  if writeOk then ({ sc.1 with file := some sc.2 }, true) else (sc.1, false)

/-- math.atan2 of the Python standard library, on exact reals (the signed
zero of IEEE 754 has no counterpart here; the y = 0, x < 0 ray gets the angle
pi, as for +0.0). -/
noncomputable def atan2 (y x : ℝ) : ℝ :=
  if 0 < x then Real.arctan (y / x)
  else if x < 0 then
    (if 0 ≤ y then Real.arctan (y / x) + Real.pi
     else Real.arctan (y / x) - Real.pi)
  else
    (if 0 < y then Real.pi / 2 else if y < 0 then -(Real.pi / 2) else 0)

/-- math.degrees. -/
noncomputable def degrees (r : ℝ) : ℝ := r * 180 / Real.pi

/-- The record returned by calculate_arm_angles. -/
structure JointAngles where
  base_deg : ℝ
  shoulder_deg : ℝ
  elbow_deg : ℝ
  wrist_deg : ℝ

/-- Steps 7-11 of calculate_arm_angles of kinematics.py: from the base yaw,
the (possibly reach-clamped) planar distance, vertical offset and
shoulder-to-wrist distance, and the two link lengths, compute the joint
angles. The two law-of-cosines divisions raise ZeroDivisionError when their
denominator is zero, hence the Option. -/
noncomputable def armCore (base_angle_deg xy_dist target_z_relative
    target_dist u l : ℝ) : Option JointAngles :=
  let target_angle_deg := degrees (atan2 target_z_relative xy_dist)
  if 2 * u * l = 0 then none
  else
    let cos_elbow := (u ^ 2 + l ^ 2 - target_dist ^ 2) / (2 * u * l)
    let cos_elbow := max (-1) (min 1 cos_elbow)
    let elbow_angle_deg := degrees (Real.arccos cos_elbow)
    if 2 * u * target_dist = 0 then none
    else
      let cos_between :=
        (u ^ 2 + target_dist ^ 2 - l ^ 2) / (2 * u * target_dist)
      let cos_between := max (-1) (min 1 cos_between)
      let angle_between_deg := degrees (Real.arccos cos_between)
      let shoulder_angle_deg := target_angle_deg - angle_between_deg
      let wrist_angle_deg := 90 - (shoulder_angle_deg + elbow_angle_deg)
      some ⟨base_angle_deg, shoulder_angle_deg, elbow_angle_deg,
            wrist_angle_deg⟩

/-- Base yaw of the solver: degrees(atan2(rel_y, rel_x)). -/
noncomputable def baseAngleDeg (x y : ℝ) (c : CalibrationProfile ℝ) : ℝ :=
  degrees (atan2 (y - c.arm_base_y) (x - c.arm_base_x))

/-- Planar distance of the target from the arm base. -/
noncomputable def xyDist (x y : ℝ) (c : CalibrationProfile ℝ) : ℝ :=
  Real.sqrt ((x - c.arm_base_x) ^ 2 + (y - c.arm_base_y) ^ 2)

/-- Height of the wrist target above the shoulder joint:
(z + hand_length) - (base_height + shoulder_height). -/
noncomputable def dzRel (z : ℝ) (c : CalibrationProfile ℝ) : ℝ :=
  z + c.hand_length_m - (c.base_height_m + c.shoulder_height_m)

/-- Pre-clamp 3D distance from the shoulder joint to the wrist target. -/
noncomputable def targetDist (x y z : ℝ) (c : CalibrationProfile ℝ) : ℝ :=
  Real.sqrt (xyDist x y c ^ 2 + dzRel z c ^ 2)

/-- Maximum reach of the two-link arm. -/
def maxReach (c : CalibrationProfile ℝ) : ℝ :=
  c.upper_arm_length_m + c.lower_arm_length_m

/-- The shoulder-to-wrist distance actually fed to the law-of-cosines steps,
after the reachability clamp. -/
noncomputable def effectiveTargetDist (x y z : ℝ)
    (c : CalibrationProfile ℝ) : ℝ :=
  if maxReach c < targetDist x y z c then maxReach c else targetDist x y z c

/-- calculate_arm_angles of kinematics.py. -/
noncomputable def calculate_arm_angles (x y z : ℝ)
    (c : CalibrationProfile ℝ) : Option JointAngles :=
  if maxReach c < targetDist x y z c then
    let scale := maxReach c / targetDist x y z c
    armCore (baseAngleDeg x y c) (xyDist x y c * scale) (dzRel z c * scale)
      (maxReach c) c.upper_arm_length_m c.lower_arm_length_m
  else
    armCore (baseAngleDeg x y c) (xyDist x y c) (dzRel z c)
      (targetDist x y z c) c.upper_arm_length_m c.lower_arm_length_m

/-- Python int() on a real value: truncation toward zero. -/
noncomputable def truncR (x : ℝ) : ℤ := if 0 ≤ x then ⌊x⌋ else ⌈x⌉

/-- The per-joint angle-to-microseconds map of fake_ik_to_us:
1500 + int(angle_deg * 600 / 90). -/
noncomputable def angleToUs (a : ℝ) : ℤ := 1500 + truncR (a * 600 / 90)

/-- The final clamp of fake_ik_to_us: max(900, min(2100, u)). -/
def clampUs (u : ℤ) : ℤ := max 900 (min 2100 u)

/-- fake_ik_to_us of kinematics.py: solve, map each angle to microseconds,
clamp, and return in the fixed order [base, shoulder, elbow, wrist]. -/
noncomputable def fake_ik_to_us (x y z : ℝ)
    (c : CalibrationProfile ℝ) : Option (List ℤ) :=
  (calculate_arm_angles x y z c).map fun a =>
    [clampUs (angleToUs a.base_deg), clampUs (angleToUs a.shoulder_deg),
     clampUs (angleToUs a.elbow_deg), clampUs (angleToUs a.wrist_deg)]

/-- The per-joint map as the spec words it, with round instead of int():
1500 + round(angle_deg * 600 / 90). For comparison with angleToUs. -/
noncomputable def angleToUsRoundSpec (a : ℝ) : ℤ := 1500 + round (a * 600 / 90)

/-- One invocation of the solver pair (calculate_arm_angles then
fake_ik_to_us) against the calibration store: when no explicit profile is
passed, the profile is obtained through load_calibration, which may update
the cache. Returns the new store state and both outputs. -/
noncomputable def solve_with_store (s : StoreState ℝ) (x y z : ℝ)
    (arg : Option (CalibrationProfile ℝ)) (default : CalibrationProfile ℝ) :
    StoreState ℝ × Option JointAngles × Option (List ℤ) :=
  match arg with
  | some c => (s, calculate_arm_angles x y z c, fake_ik_to_us x y z c)
  | none =>
    let lc := load_calibration s default
    (lc.1, calculate_arm_angles x y z lc.2, fake_ik_to_us x y z lc.2)

/-! ### Helper lemmas -/

theorem trunc_intCast (n : ℤ) : trunc (n : ℚ) = n := by
  unfold trunc
  split
  · exact Int.floor_intCast n
  · exact Int.ceil_intCast n

/-- Elbow angle as a function of the (post-clamp) distance and links. -/
noncomputable def elbowDegOf (d u l : ℝ) : ℝ :=
  degrees (Real.arccos (max (-1) (min 1 ((u ^ 2 + l ^ 2 - d ^ 2) / (2 * u * l)))))

/-- Angle between the upper arm and the shoulder-to-target ray. -/
noncomputable def betweenDegOf (d u l : ℝ) : ℝ :=
  degrees (Real.arccos (max (-1) (min 1 ((u ^ 2 + d ^ 2 - l ^ 2) / (2 * u * d)))))

/-- Shoulder angle: vertical target angle minus the angle between. -/
noncomputable def shoulderDegOf (xy dz d u l : ℝ) : ℝ :=
  degrees (atan2 dz xy) - betweenDegOf d u l

/-- The JointAngles record armCore produces when no division fails. -/
noncomputable def armCoreResult (b xy dz d u l : ℝ) : JointAngles :=
  ⟨b, shoulderDegOf xy dz d u l, elbowDegOf d u l,
   90 - (shoulderDegOf xy dz d u l + elbowDegOf d u l)⟩

theorem armCore_eq_some (b xy dz d u l : ℝ) (hul : 2 * u * l ≠ 0)
    (hud : 2 * u * d ≠ 0) :
    armCore b xy dz d u l = some (armCoreResult b xy dz d u l) := by
  simp only [armCore, armCoreResult, shoulderDegOf, elbowDegOf, betweenDegOf]
  rw [if_neg hul, if_neg hud]

theorem calculate_arm_angles_clamped (x y z : ℝ) (c : CalibrationProfile ℝ)
    (h : maxReach c < targetDist x y z c) :
    calculate_arm_angles x y z c =
      armCore (baseAngleDeg x y c)
        (xyDist x y c * (maxReach c / targetDist x y z c))
        (dzRel z c * (maxReach c / targetDist x y z c))
        (maxReach c) c.upper_arm_length_m c.lower_arm_length_m := by
  unfold calculate_arm_angles
  rw [if_pos h]

theorem calculate_arm_angles_unclamped (x y z : ℝ) (c : CalibrationProfile ℝ)
    (h : ¬ maxReach c < targetDist x y z c) :
    calculate_arm_angles x y z c =
      armCore (baseAngleDeg x y c) (xyDist x y c) (dzRel z c)
        (targetDist x y z c) c.upper_arm_length_m c.lower_arm_length_m := by
  unfold calculate_arm_angles
  rw [if_neg h]

/-- Totality of the solver away from the degenerate target_dist = 0
configuration: with positive link lengths, the solver always returns a
result whose base angle is the base yaw and whose shoulder-to-wrist
distance argument is the reach-clamped distance. -/
theorem calculate_arm_angles_total (x y z : ℝ) (c : CalibrationProfile ℝ)
    (hu : 0 < c.upper_arm_length_m) (hl : 0 < c.lower_arm_length_m)
    (hd : targetDist x y z c ≠ 0) :
    ∃ xy dz, calculate_arm_angles x y z c =
      some (armCoreResult (baseAngleDeg x y c) xy dz
        (effectiveTargetDist x y z c)
        c.upper_arm_length_m c.lower_arm_length_m) := by
  have hul : 2 * c.upper_arm_length_m * c.lower_arm_length_m ≠ 0 := by
    positivity
  by_cases h : maxReach c < targetDist x y z c
  · have hmr : maxReach c = c.upper_arm_length_m + c.lower_arm_length_m := rfl
    have hud : 2 * c.upper_arm_length_m * maxReach c ≠ 0 := by
      rw [hmr]; positivity
    have he : effectiveTargetDist x y z c = maxReach c := by
      unfold effectiveTargetDist
      rw [if_pos h]
    refine ⟨xyDist x y c * (maxReach c / targetDist x y z c),
      dzRel z c * (maxReach c / targetDist x y z c), ?_⟩
    rw [he, calculate_arm_angles_clamped x y z c h,
      armCore_eq_some _ _ _ _ _ _ hul hud]
  · have hud : 2 * c.upper_arm_length_m * targetDist x y z c ≠ 0 := by
      intro h0
      rcases mul_eq_zero.mp h0 with h1 | h1
      · rcases mul_eq_zero.mp h1 with h2 | h2
        · norm_num at h2
        · exact absurd h2 (ne_of_gt hu)
      · exact hd h1
    have he : effectiveTargetDist x y z c = targetDist x y z c := by
      unfold effectiveTargetDist
      rw [if_neg h]
    refine ⟨xyDist x y c, dzRel z c, ?_⟩
    rw [he, calculate_arm_angles_unclamped x y z c h,
      armCore_eq_some _ _ _ _ _ _ hul hud]

theorem degrees_arccos_nonneg (v : ℝ) : 0 ≤ degrees (Real.arccos v) := by
  unfold degrees
  exact div_nonneg (mul_nonneg (Real.arccos_nonneg v) (by norm_num))
    Real.pi_pos.le

theorem degrees_arccos_le (v : ℝ) : degrees (Real.arccos v) ≤ 180 := by
  unfold degrees
  rw [div_le_iff₀ Real.pi_pos]
  have h := Real.arccos_le_pi v
  nlinarith [Real.pi_pos]

/-- A nonzero vertical offset keeps the shoulder-to-wrist distance away
from zero. -/
theorem targetDist_ne_zero_of_dz (x y z : ℝ) (c : CalibrationProfile ℝ)
    (h : dzRel z c ≠ 0) : targetDist x y z c ≠ 0 := by
  unfold targetDist
  rw [Real.sqrt_ne_zero']
  have h1 : 0 ≤ xyDist x y c ^ 2 := sq_nonneg _
  have h2 : (0:ℝ) < dzRel z c ^ 2 :=
    (sq_nonneg _).lt_of_ne (Ne.symm (pow_ne_zero 2 h))
  linarith

/-- Mirroring the target left/right flips atan2 across the vertical axis,
upper half plane. -/
theorem atan2_neg_fst_pos (y x : ℝ) (hy : 0 < y) :
    atan2 y (-x) = Real.pi - atan2 y x := by
  unfold atan2
  rcases lt_trichotomy x 0 with hx | rfl | hx
  · rw [if_pos (by linarith : (0:ℝ) < -x), if_neg (by linarith : ¬ (0:ℝ) < x),
      if_pos hx, if_pos hy.le, div_neg, Real.arctan_neg]
    ring
  · rw [neg_zero]
    rw [if_neg (lt_irrefl 0), if_neg (lt_irrefl 0), if_pos hy]
    ring
  · rw [if_neg (by linarith : ¬ (0:ℝ) < -x), if_pos (by linarith : -x < 0),
      if_pos hy.le, if_pos hx, div_neg, Real.arctan_neg]
    ring

/-- Mirroring the target left/right flips atan2 across the vertical axis,
lower half plane. -/
theorem atan2_neg_fst_neg (y x : ℝ) (hy : y < 0) :
    atan2 y (-x) = -Real.pi - atan2 y x := by
  unfold atan2
  rcases lt_trichotomy x 0 with hx | rfl | hx
  · rw [if_pos (by linarith : (0:ℝ) < -x), if_neg (by linarith : ¬ (0:ℝ) < x),
      if_pos hx, if_neg (by linarith : ¬ (0:ℝ) ≤ y), div_neg, Real.arctan_neg]
    ring
  · rw [neg_zero]
    rw [if_neg (lt_irrefl 0), if_neg (lt_irrefl 0),
      if_neg (by linarith : ¬ (0:ℝ) < y), if_pos hy]
    ring
  · rw [if_neg (by linarith : ¬ (0:ℝ) < -x), if_pos (by linarith : -x < 0),
      if_neg (by linarith : ¬ (0:ℝ) ≤ y), if_pos hx, div_neg, Real.arctan_neg]
    ring

theorem degrees_pi_sub (a : ℝ) : degrees (Real.pi - a) = 180 - degrees a := by
  unfold degrees
  field_simp
  ring

theorem degrees_neg_pi_sub (a : ℝ) :
    degrees (-Real.pi - a) = -180 - degrees a := by
  unfold degrees
  field_simp
  ring

/-- With nonzero scales the pixel-table round trip is exact up to the final
int() truncation of the incoming pixel value. -/
theorem roundtrip_exact (c : CalibrationProfile ℚ) (hx : c.scale_x ≠ 0)
    (hy : c.scale_y ≠ 0) (cx cy : ℚ) :
    table_to_px (px_to_table cx cy c).1 (px_to_table cx cy c).2 c =
      some (trunc cx, trunc cy) := by
  have hcancel : ∀ v ox s : ℚ, s ≠ 0 → ox + (v - ox) * s / s = v := by
    intro v ox s hs
    rw [mul_div_cancel_right₀ _ hs]
    ring
  unfold px_to_table table_to_px
  rw [if_neg (by push_neg; exact ⟨hx, hy⟩)]
  cases hfx : c.flip_x <;> cases hfy : c.flip_y <;>
    simp [hfx, hfy, neg_neg, hcancel _ _ _ hx, hcancel _ _ _ hy]

/-! ### The claims -/

/-- Claim C6 (confirmed): with the default profile, pixel (320, 240) maps
to table point (0, 0), and pixel (420, 240) maps to x = 0.15, y = 0. -/
theorem claim_C6 :
    px_to_table (320:ℚ) 240 (DEFAULT_CALIBRATION ℚ) = (0, 0) ∧
    px_to_table (420:ℚ) 240 (DEFAULT_CALIBRATION ℚ) = (0.15, 0) := by
  constructor <;> norm_num [px_to_table, DEFAULT_CALIBRATION]

/-- Claim C3 (confirmed): for every profile with nonzero scales and every
integer pixel point, table_to_px after px_to_table returns a pixel point
within 1 of the original per axis (in the exact model the round trip is
exact). -/
theorem claim_C3 (c : CalibrationProfile ℚ) (hx : c.scale_x ≠ 0)
    (hy : c.scale_y ≠ 0) (px py : ℤ) :
    ∃ q : ℤ × ℤ,
      table_to_px (px_to_table (px:ℚ) (py:ℚ) c).1
        (px_to_table (px:ℚ) (py:ℚ) c).2 c = some q ∧
      |q.1 - px| ≤ 1 ∧ |q.2 - py| ≤ 1 := by
  have h := roundtrip_exact c hx hy (px:ℚ) (py:ℚ)
  rw [trunc_intCast, trunc_intCast] at h
  exact ⟨(px, py), h, by simp, by simp⟩

/-- Claim C3 witness: the round trip at the default profile and pixel
(400, 100). -/
theorem claim_C3_witness :
    ∃ q : ℤ × ℤ,
      table_to_px (px_to_table ((400:ℤ):ℚ) ((100:ℤ):ℚ)
          (DEFAULT_CALIBRATION ℚ)).1
        (px_to_table ((400:ℤ):ℚ) ((100:ℤ):ℚ) (DEFAULT_CALIBRATION ℚ)).2
        (DEFAULT_CALIBRATION ℚ) = some q ∧
      |q.1 - 400| ≤ 1 ∧ |q.2 - 100| ≤ 1 :=
  claim_C3 (DEFAULT_CALIBRATION ℚ) (by norm_num [DEFAULT_CALIBRATION])
    (by norm_num [DEFAULT_CALIBRATION]) 400 100

/-- A calibration profile with zero x scale, as a calibration file could
hold: the store accepts it unchecked. -/
def zeroScaleProfile : CalibrationProfile ℚ :=
  { DEFAULT_CALIBRATION ℚ with scale_x := 0 }

/-- Claim C5 counterexample: load_calibration hands a zero-scale profile
from the calibration file straight to the caller (no rejection), and
table_to_px applied with it reaches the division, which fails
(ZeroDivisionError, modelled as none). -/
theorem claim_C5_cex :
    (load_calibration ⟨none, some zeroScaleProfile⟩
        (DEFAULT_CALIBRATION ℚ)).2 = zeroScaleProfile ∧
    table_to_px 0.1 0.2 zeroScaleProfile = none := by
  constructor <;> rfl

/-- Claim C5 amended (corrected): the store performs no invariant
validation: load_calibration returns whatever profile the calibration file
parses to, a zero-scale profile included, and every table_to_px call with a
zero-scale profile fails at the division. -/
theorem claim_C5_amended (p d : CalibrationProfile ℚ)
    (hp : p.scale_x = 0 ∨ p.scale_y = 0) :
    (load_calibration ⟨none, some p⟩ d).2 = p ∧
    ∀ x y : ℚ, table_to_px x y p = none := by
  refine ⟨rfl, fun x y => ?_⟩
  unfold table_to_px
  rw [if_pos hp]

/-- Claim C5 witness: the amended claim at the zero-scale profile. -/
theorem claim_C5_witness :
    (load_calibration ⟨none, some zeroScaleProfile⟩
        (DEFAULT_CALIBRATION ℚ)).2 = zeroScaleProfile ∧
    ∀ x y : ℚ, table_to_px x y zeroScaleProfile = none :=
  claim_C5_amended zeroScaleProfile (DEFAULT_CALIBRATION ℚ) (Or.inl rfl)

/-- A second concrete profile, distinct from the default. -/
def altProfile : CalibrationProfile ℚ :=
  { DEFAULT_CALIBRATION ℚ with scale_x := 0.002 }

/-- Claim C9 counterexample: with the default profile already cached,
save_calibration with the explicit profile altProfile writes the file but
leaves the cache untouched, so the next load_calibration returns the old
cached profile, not altProfile. -/
theorem claim_C9_cex :
    (load_calibration
        (save_calibration ⟨some (DEFAULT_CALIBRATION ℚ), none⟩
          (DEFAULT_CALIBRATION ℚ) (some altProfile) true).1
        (DEFAULT_CALIBRATION ℚ)).2 ≠ altProfile := by
  show DEFAULT_CALIBRATION ℚ ≠ altProfile
  intro h
  have h2 : (DEFAULT_CALIBRATION ℚ).scale_x = altProfile.scale_x := by
    rw [h]
  norm_num [DEFAULT_CALIBRATION, altProfile] at h2

/-- Claim C9 amended (corrected): save_calibration(p) does not update the
in-process cache; a subsequent load_calibration returns the previously
cached profile when one exists (which need not be p), and returns p (read
back from the file just written) only when the cache was empty. -/
theorem claim_C9_amended (s : StoreState ℚ) (d p : CalibrationProfile ℚ) :
    (∀ q, s.cache = some q →
      (load_calibration (save_calibration s d (some p) true).1 d).2 = q) ∧
    (s.cache = none →
      (load_calibration (save_calibration s d (some p) true).1 d).2 = p) := by
  obtain ⟨cache, file⟩ := s
  constructor
  · intro q hq
    simp only at hq
    subst hq
    rfl
  · intro hq
    simp only at hq
    subst hq
    rfl

/-- Claim C9 witness: the amended claim at a state caching the default
profile; the later load returns the default, not the saved altProfile. -/
theorem claim_C9_witness :
    (load_calibration
        (save_calibration ⟨some (DEFAULT_CALIBRATION ℚ), none⟩
          (DEFAULT_CALIBRATION ℚ) (some altProfile) true).1
        (DEFAULT_CALIBRATION ℚ)).2 = DEFAULT_CALIBRATION ℚ :=
  (claim_C9_amended ⟨some (DEFAULT_CALIBRATION ℚ), none⟩
      (DEFAULT_CALIBRATION ℚ) altProfile).1 (DEFAULT_CALIBRATION ℚ) rfl

/-- Claim C8 (confirmed): running the solver pair twice with the same
target and the same profile argument against the same store yields the
identical outputs and the identical store state: the solve is a
deterministic function of its arguments and the profile snapshot. -/
theorem claim_C8 (s : StoreState ℝ) (x y z : ℝ)
    (arg : Option (CalibrationProfile ℝ)) (d : CalibrationProfile ℝ) :
    solve_with_store ((solve_with_store s x y z arg d).1) x y z arg d =
      solve_with_store s x y z arg d := by
  cases arg with
  | some c => rfl
  | none =>
    obtain ⟨cache, file⟩ := s
    cases cache with
    | some c => rfl
    | none => cases file <;> rfl

/-- Claim C1 (code bug): at a target coinciding with the shoulder joint
(x = arm_base_x = 0, y = arm_base_y = 0, z = 0.0962, so that
z + hand_length = base_height + shoulder_height and target_dist = 0), the
solver does not return a neutral pose: the angle-between step divides by
2 * upper * target_dist = 0 and the call dies with ZeroDivisionError
(modelled as none). -/
theorem claim_C1_degenerate :
    calculate_arm_angles 0 0 0.0962 (DEFAULT_CALIBRATION ℝ) = none := by
  have hd : targetDist 0 0 0.0962 (DEFAULT_CALIBRATION ℝ) = 0 := by
    have hxy : xyDist 0 0 (DEFAULT_CALIBRATION ℝ) = 0 := by
      unfold xyDist
      norm_num [DEFAULT_CALIBRATION, Real.sqrt_zero]
    have hdz : dzRel 0.0962 (DEFAULT_CALIBRATION ℝ) = 0 := by
      unfold dzRel
      norm_num [DEFAULT_CALIBRATION]
    unfold targetDist
    rw [hxy, hdz]
    norm_num [Real.sqrt_zero]
  rw [calculate_arm_angles_unclamped _ _ _ _ (by
    rw [hd]
    norm_num [maxReach, DEFAULT_CALIBRATION]), hd]
  simp only [armCore]
  rw [if_neg (by norm_num [DEFAULT_CALIBRATION] :
    ¬ 2 * (DEFAULT_CALIBRATION ℝ).upper_arm_length_m *
      (DEFAULT_CALIBRATION ℝ).lower_arm_length_m = 0)]
  simp

/-- Claim C2 counterexample: at a joint angle of 0.1 degrees the code
computes 1500 + int(0.1 * 600 / 90) = 1500 + int(2/3) = 1500, while the
formula of the claim gives 1500 + round(2/3) = 1501. -/
theorem claim_C2_cex :
    angleToUs (1/10 : ℝ) ≠ angleToUsRoundSpec (1/10 : ℝ) := by
  have harg : ((1:ℝ)/10) * 600 / 90 = 2/3 := by norm_num
  unfold angleToUs angleToUsRoundSpec truncR
  rw [harg, if_pos (by norm_num : (0:ℝ) ≤ 2/3)]
  have hf : ⌊(2/3 : ℝ)⌋ = 0 := by
    apply Int.floor_eq_iff.mpr
    constructor <;> norm_num
  have hr : round ((2:ℝ)/3) = 1 := by
    rw [round_eq, show (2:ℝ)/3 + 1/2 = 7/6 by norm_num]
    apply Int.floor_eq_iff.mpr
    constructor <;> norm_num
  rw [hf, hr]
  norm_num

/-- Claim C2 amended (corrected): fake_ik_to_us maps each joint angle by
us = 1500 + int(angle_deg * 600 / 90) — truncation toward zero, not
rounding — then clamps each value to [900, 2100] and returns the fixed
order [base_us, shoulder_us, elbow_us, wrist_us]; for every angle the
clamped value lies within [900, 2100]. -/
theorem claim_C2_amended (x y z : ℝ) (c : CalibrationProfile ℝ)
    (hu : 0 < c.upper_arm_length_m) (hl : 0 < c.lower_arm_length_m)
    (hd : targetDist x y z c ≠ 0) :
    (∀ a : ℝ, 900 ≤ clampUs (angleToUs a) ∧ clampUs (angleToUs a) ≤ 2100) ∧
    ∃ r, calculate_arm_angles x y z c = some r ∧
      fake_ik_to_us x y z c =
        some [clampUs (angleToUs r.base_deg),
              clampUs (angleToUs r.shoulder_deg),
              clampUs (angleToUs r.elbow_deg),
              clampUs (angleToUs r.wrist_deg)] := by
  refine ⟨fun a => ⟨le_max_left _ _, max_le (by norm_num) (min_le_left _ _)⟩, ?_⟩
  obtain ⟨xy, dz, hr⟩ := calculate_arm_angles_total x y z c hu hl hd
  refine ⟨_, hr, ?_⟩
  unfold fake_ik_to_us
  rw [hr]
  rfl

/-- Claim C2 witness: the amended claim at the reachable target
(0.15, 0, 0.02) with the default profile. -/
theorem claim_C2_witness :
    (∀ a : ℝ, 900 ≤ clampUs (angleToUs a) ∧ clampUs (angleToUs a) ≤ 2100) ∧
    ∃ r, calculate_arm_angles 0.15 0 0.02 (DEFAULT_CALIBRATION ℝ) = some r ∧
      fake_ik_to_us 0.15 0 0.02 (DEFAULT_CALIBRATION ℝ) =
        some [clampUs (angleToUs r.base_deg),
              clampUs (angleToUs r.shoulder_deg),
              clampUs (angleToUs r.elbow_deg),
              clampUs (angleToUs r.wrist_deg)] :=
  claim_C2_amended 0.15 0 0.02 (DEFAULT_CALIBRATION ℝ)
    (by norm_num [DEFAULT_CALIBRATION])
    (by norm_num [DEFAULT_CALIBRATION])
    (targetDist_ne_zero_of_dz _ _ _ _
      (by norm_num [dzRel, DEFAULT_CALIBRATION]))

/-- Claim C10 (confirmed): with positive link lengths (and a target not
coinciding with the shoulder joint, where the call instead raises), the
returned elbow angle always lies in [0, 180]: the cosine is clamped to
[-1, 1] before acos, whose value lies in [0, pi]. -/
theorem claim_C10 (x y z : ℝ) (c : CalibrationProfile ℝ)
    (hu : 0 < c.upper_arm_length_m) (hl : 0 < c.lower_arm_length_m)
    (hd : targetDist x y z c ≠ 0) :
    ∃ r, calculate_arm_angles x y z c = some r ∧
      0 ≤ r.elbow_deg ∧ r.elbow_deg ≤ 180 := by
  obtain ⟨xy, dz, hr⟩ := calculate_arm_angles_total x y z c hu hl hd
  exact ⟨_, hr, degrees_arccos_nonneg _, degrees_arccos_le _⟩

/-- Claim C10 witness: the elbow bound at target (0.1, 0.1, 0.02) with the
default profile. -/
theorem claim_C10_witness :
    ∃ r, calculate_arm_angles 0.1 0.1 0.02 (DEFAULT_CALIBRATION ℝ) = some r ∧
      0 ≤ r.elbow_deg ∧ r.elbow_deg ≤ 180 :=
  claim_C10 0.1 0.1 0.02 (DEFAULT_CALIBRATION ℝ)
    (by norm_num [DEFAULT_CALIBRATION])
    (by norm_num [DEFAULT_CALIBRATION])
    (targetDist_ne_zero_of_dz _ _ _ _
      (by norm_num [dzRel, DEFAULT_CALIBRATION]))

/-- Claim C4 (confirmed): for a target beyond max reach the solver scales
the planar distance and the vertical offset by max_reach / target_dist,
the effective post-clamp shoulder-to-wrist distance equals max_reach
exactly, and the call still returns a full set of joint angles. -/
theorem claim_C4 (x y z : ℝ) (c : CalibrationProfile ℝ)
    (hu : 0 < c.upper_arm_length_m) (hl : 0 < c.lower_arm_length_m)
    (hclamp : maxReach c < targetDist x y z c) :
    effectiveTargetDist x y z c = maxReach c ∧
    calculate_arm_angles x y z c =
      armCore (baseAngleDeg x y c)
        (xyDist x y c * (maxReach c / targetDist x y z c))
        (dzRel z c * (maxReach c / targetDist x y z c))
        (maxReach c) c.upper_arm_length_m c.lower_arm_length_m ∧
    ∃ r, calculate_arm_angles x y z c = some r := by
  have hd : targetDist x y z c ≠ 0 := by
    have h1 : (0:ℝ) < maxReach c := by
      unfold maxReach
      linarith
    intro h0
    rw [h0] at hclamp
    linarith
  refine ⟨?_, calculate_arm_angles_clamped x y z c hclamp, ?_⟩
  · unfold effectiveTargetDist
    rw [if_pos hclamp]
  · obtain ⟨xy, dz, hr⟩ := calculate_arm_angles_total x y z c hu hl hd
    exact ⟨_, hr⟩

/-- The target (1, 0, 0.02) is beyond the default max reach of 0.21 m. -/
theorem default_unreachable :
    maxReach (DEFAULT_CALIBRATION ℝ) <
      targetDist 1 0 0.02 (DEFAULT_CALIBRATION ℝ) := by
  have hxy : xyDist 1 0 (DEFAULT_CALIBRATION ℝ) = 1 := by
    unfold xyDist
    norm_num [DEFAULT_CALIBRATION, Real.sqrt_one]
  unfold targetDist
  rw [hxy]
  have h1 : Real.sqrt 1 ≤
      Real.sqrt (1 ^ 2 + dzRel 0.02 (DEFAULT_CALIBRATION ℝ) ^ 2) := by
    apply Real.sqrt_le_sqrt
    nlinarith [sq_nonneg (dzRel 0.02 (DEFAULT_CALIBRATION ℝ))]
  rw [Real.sqrt_one] at h1
  have h2 : maxReach (DEFAULT_CALIBRATION ℝ) = 0.21 := by
    norm_num [maxReach, DEFAULT_CALIBRATION]
  rw [h2]
  linarith

/-- Claim C4 witness: the reachability clamp at the far target (1, 0, 0.02)
with the default profile. -/
theorem claim_C4_witness :
    effectiveTargetDist 1 0 0.02 (DEFAULT_CALIBRATION ℝ) =
      maxReach (DEFAULT_CALIBRATION ℝ) ∧
    calculate_arm_angles 1 0 0.02 (DEFAULT_CALIBRATION ℝ) =
      armCore (baseAngleDeg 1 0 (DEFAULT_CALIBRATION ℝ))
        (xyDist 1 0 (DEFAULT_CALIBRATION ℝ) *
          (maxReach (DEFAULT_CALIBRATION ℝ) /
            targetDist 1 0 0.02 (DEFAULT_CALIBRATION ℝ)))
        (dzRel 0.02 (DEFAULT_CALIBRATION ℝ) *
          (maxReach (DEFAULT_CALIBRATION ℝ) /
            targetDist 1 0 0.02 (DEFAULT_CALIBRATION ℝ)))
        (maxReach (DEFAULT_CALIBRATION ℝ))
        (DEFAULT_CALIBRATION ℝ).upper_arm_length_m
        (DEFAULT_CALIBRATION ℝ).lower_arm_length_m ∧
    ∃ r, calculate_arm_angles 1 0 0.02 (DEFAULT_CALIBRATION ℝ) = some r :=
  claim_C4 1 0 0.02 (DEFAULT_CALIBRATION ℝ)
    (by norm_num [DEFAULT_CALIBRATION])
    (by norm_num [DEFAULT_CALIBRATION])
    default_unreachable

/-- Claim C7 (confirmed): with the arm base at the origin, mirroring the
target left/right mirrors the base yaw across the 90 degree axis in the
upper half plane and across the -90 degree axis in the lower half plane. -/
theorem claim_C7 (x y z : ℝ) (c : CalibrationProfile ℝ)
    (hbx : c.arm_base_x = 0) (hby : c.arm_base_y = 0)
    (hu : 0 < c.upper_arm_length_m) (hl : 0 < c.lower_arm_length_m)
    (hd : targetDist x y z c ≠ 0) :
    ∃ r1 r2, calculate_arm_angles x y z c = some r1 ∧
      calculate_arm_angles (-x) y z c = some r2 ∧
      (0 < y → r2.base_deg = 180 - r1.base_deg) ∧
      (y < 0 → r2.base_deg = -180 - r1.base_deg) := by
  have hd2 : targetDist (-x) y z c ≠ 0 := by
    unfold targetDist xyDist at hd ⊢
    rw [hbx, hby] at hd ⊢
    simpa [sub_zero, neg_sq] using hd
  obtain ⟨xy1, dz1, h1⟩ := calculate_arm_angles_total x y z c hu hl hd
  obtain ⟨xy2, dz2, h2⟩ := calculate_arm_angles_total (-x) y z c hu hl hd2
  refine ⟨_, _, h1, h2, ?_, ?_⟩
  · intro hy
    show baseAngleDeg (-x) y c = 180 - baseAngleDeg x y c
    unfold baseAngleDeg
    rw [hbx, hby]
    simp only [sub_zero]
    rw [atan2_neg_fst_pos y x hy, degrees_pi_sub]
  · intro hy
    show baseAngleDeg (-x) y c = -180 - baseAngleDeg x y c
    unfold baseAngleDeg
    rw [hbx, hby]
    simp only [sub_zero]
    rw [atan2_neg_fst_neg y x hy, degrees_neg_pi_sub]

/-- Claim C7 witness: the mirror relation at targets (0.05, 0.05, 0.02) and
(-0.05, 0.05, 0.02) with the default profile. -/
theorem claim_C7_witness :
    ∃ r1 r2,
      calculate_arm_angles 0.05 0.05 0.02 (DEFAULT_CALIBRATION ℝ) = some r1 ∧
      calculate_arm_angles (-0.05) 0.05 0.02 (DEFAULT_CALIBRATION ℝ) =
        some r2 ∧
      (0 < (0.05:ℝ) → r2.base_deg = 180 - r1.base_deg) ∧
      ((0.05:ℝ) < 0 → r2.base_deg = -180 - r1.base_deg) :=
  claim_C7 0.05 0.05 0.02 (DEFAULT_CALIBRATION ℝ)
    (by norm_num [DEFAULT_CALIBRATION])
    (by norm_num [DEFAULT_CALIBRATION])
    (by norm_num [DEFAULT_CALIBRATION])
    (by norm_num [DEFAULT_CALIBRATION])
    (targetDist_ne_zero_of_dz _ _ _ _
      (by norm_num [dzRel, DEFAULT_CALIBRATION]))


